import Mathlib

set_option linter.unusedVariables false

/-!
Verification of the obs-vkcapture sources: the Vulkan interposition layer
(src/src/vklayer.c) and the consumer-side capture broker (src/unnamed/part_000).
Vulkan handles are modelled as natural numbers (0 is VK_NULL_HANDLE), file
descriptors and VkResult values as integers (0 is VK_SUCCESS), and the results
of external calls (Vulkan entry points, sockets) as explicit oracle records.
-/

namespace ObsVkcapture

/-! ## Wire constants -/

/-- Modelled from the spec: the header capture.h is absent from the sources; the
spec fixes the discriminant of the ClientInfo wire message to 1. -/
def CAPTURE_CLIENT_DATA_TYPE : Nat := 1

/-- Modelled from the spec: the discriminant of the TextureInfo wire message is 2. -/
def CAPTURE_TEXTURE_DATA_TYPE : Nat := 2

/-- Linux value of the SOL_SOCKET cmsg level. -/
def SOL_SOCKET : Nat := 1

/-- Linux value of the SCM_RIGHTS cmsg type. -/
def SCM_RIGHTS : Nat := 1

/-- Linux drm_fourcc.h value of DRM_FORMAT_MOD_INVALID (0x00ffffffffffffff). -/
def DRM_FORMAT_MOD_INVALID : Nat := 0x00ffffffffffffff

/-! ## Broker: data model (src/unnamed/part_000)

The broker fields a claim depends on.  Of the struct capture_texture_data only
the nfd field is read by the server thread; the remaining metadata is copied
only consulted by the render tick, so it is abstracted into a
single payload value. -/

/-- The parsed capture_texture_data payload as seen by the server loop: its nfd
field, plus the rest of the bytes abstracted into one payload value. -/
structure TextureData where
  nfd : Nat
  rest : Nat
  deriving DecidableEq

/-- vkcapture_client_t: one connected producer as the broker tracks it. -/
structure BClient where
  id : Nat
  sockfd : Int
  buf_id : Nat
  buf_fds : List Int
  cdata : Nat
  tdata : TextureData
  deriving DecidableEq

/-- The server-thread state: the monotonic bufid counter, the client registry,
the poll set (its fds), and a trace of every close(2) the thread performed. -/
structure ServerState where
  bufid : Nat
  clients : List BClient
  fds : List Int
  closed : List Int
  deriving DecidableEq

/-- One SCM_RIGHTS control message: level, type and the carried descriptors
(the code derives nfd from cmsg_len; here it is the length of fds). -/
structure Cmsg where
  level : Nat
  ty : Nat
  fds : List Int
  deriving DecidableEq

/-- The outcome of one recvmsg call on a client socket: the returned length n,
whether errno was EAGAIN/EWOULDBLOCK when n = -1, the first payload byte, the
payload reinterpreted as each message kind, and the control message if any. -/
structure RecvEvent where
  n : Int
  errnoEagain : Bool
  buf0 : Nat
  cdata : Nat
  tdata : TextureData
  cmsg : Option Cmsg
  deriving DecidableEq

/-- Whether the drain loop breaks out or keeps calling recvmsg afterwards. -/
inductive StepResult where
  | brk (st : ServerState)
  | cont (st : ServerState)
  deriving DecidableEq

/-- server_cleanup_client: close the socket, drop it from the poll set, close
every held buffer fd, erase the client record. -/
def server_cleanup_client (st : ServerState) (c : BClient) : ServerState :=
  { st with
    closed := st.closed ++ [c.sockfd] ++ c.buf_fds.filter (fun fd => 0 ≤ fd),
    fds := st.fds.erase c.sockfd,
    clients := st.clients.filter (fun x => x.id ≠ c.id) }

/-- Replace the stored record of the client with the given id. -/
def setClient (st : ServerState) (c : BClient) : ServerState :=
  { st with clients := st.clients.map (fun x => if x.id = c.id then c else x) }

/-- One iteration of the drain loop in server_thread_run, handling a single
recvmsg outcome for a given client.  clientSize and textureSize are the
compile-time sizes CAPTURE_CLIENT_DATA_SIZE and CAPTURE_TEXTURE_DATA_SIZE from
the missing header; the iovec length stays textureSize throughout, because
recvmsg never modifies the iovec, so the size checks in the code compare these
constants rather than the received length n. -/
def server_handle_recv (clientSize textureSize : Nat) (st : ServerState) (c : BClient)
    (ev : RecvEvent) : StepResult :=
  if ev.n = -1 ∧ ev.errnoEagain then .brk st
  else if ev.n ≤ 0 then .brk (server_cleanup_client st c)
  else if ev.buf0 = CAPTURE_CLIENT_DATA_TYPE then
    if textureSize ≠ clientSize then .brk (server_cleanup_client st c)
    else .brk (setClient st { c with cdata := ev.cdata })
  else if ev.buf0 = CAPTURE_TEXTURE_DATA_TYPE then
    let c1 : BClient := { c with tdata := ev.tdata }
    let st1 := setClient st c1
    match ev.cmsg with
    | none => .brk (server_cleanup_client st1 c1)
    | some cm =>
      if cm.level ≠ SOL_SOCKET ∨ cm.ty ≠ SCM_RIGHTS then .brk (server_cleanup_client st1 c1)
      else
        let nfd := cm.fds.length
        if textureSize ≠ textureSize ∨ c1.tdata.nfd ≠ nfd then
          .brk (server_cleanup_client { st1 with closed := st1.closed ++ cm.fds } c1)
        else
          let newFds := (List.range 4).map (fun i => cm.fds.getD i (-1))
          let c2 : BClient := { c1 with buf_fds := newFds, buf_id := st1.bufid + 1 }
          let st2 : ServerState :=
            { st1 with
              bufid := st1.bufid + 1,
              closed := st1.closed ++ c1.buf_fds.filter (fun fd => 0 ≤ fd) }
          .cont (setClient st2 c2)
  else .cont st

/-! ## Layer: data model (src/src/vklayer.c) -/

/-- struct vk_swap_data.  The key field is node.obj, the VkSwapchainKHR handle
value; 0 stands for VK_NULL_HANDLE in the image and memory handles. -/
structure VkSwapData where
  key : Nat
  image_extent_w : Nat
  image_extent_h : Nat
  format : Nat
  export_image : Nat
  export_mem : Nat
  rowPitch : Nat
  layout_offset : Nat
  image_count : Nat
  dmabuf_fd : Int
  captured : Bool
  deriving DecidableEq

/-- struct vk_frame_data: one frame slot of a queue ring. -/
structure VkFrameData where
  cmd_pool : Nat
  cmd_buffer : Nat
  fence : Nat
  cmd_buffer_busy : Bool
  deriving DecidableEq

/-- struct vk_queue_data (key is node.obj, the VkQueue handle value). -/
structure VkQueueData where
  key : Nat
  fam_idx : Nat
  supports_transfer : Bool
  frames : List VkFrameData
  frame_index : Nat
  deriving DecidableEq

/-- struct vk_data: the per-device state (key is the dispatch-table pointer the
registry uses).  cur_swap holds the key of the current swapchain, mirroring the
pointer into the swaps list. -/
structure VkData where
  key : Nat
  valid : Bool
  queues : List VkQueueData
  swaps : List VkSwapData
  cur_swap : Option Nat
  deriving DecidableEq

/-- The process-singleton capture_data: socket fd (or -1) and capturing flag. -/
structure CaptureData where
  connfd : Int
  capturing : Bool
  deriving DecidableEq

/-- Externally visible calls the layer performs during teardown paths. -/
inductive VkAction where
  | waitForFences (fence : Nat)
  | resetFences (fence : Nat)
  | destroyFence (fence : Nat)
  | destroyCommandPool (pool : Nat)
  | destroyImage (image : Nat)
  | freeMemory (mem : Nat)
  | closeFd (fd : Int)
  | destroyDeviceNext
  deriving DecidableEq

/-- get_swap_data: first node in the swaps list with the given handle value. -/
def getSwap (d : VkData) (k : Nat) : Option VkSwapData :=
  d.swaps.find? (fun s => s.key == k)

/-- In-place mutation of the swap node that s aliases (same key). -/
def setSwap (d : VkData) (s : VkSwapData) : VkData :=
  { d with swaps := d.swaps.map (fun x => if x.key = s.key then s else x) }

/-- remove_obj_data on the swaps list: drop the first node with the key. -/
def removeSwapList : List VkSwapData → Nat → List VkSwapData
  | [], _ => []
  | s :: rest, k => if s.key = k then rest else s :: removeSwapList rest k

/-- remove_free_swap_data: remove (and free) the swap node with this key. -/
def removeSwap (d : VkData) (k : Nat) : VkData :=
  { d with swaps := removeSwapList d.swaps k }

/-- capture_should_stop: capturing with the socket gone. -/
def capture_should_stop (cap : CaptureData) : Bool :=
  cap.capturing && decide (cap.connfd < 0)

/-- capture_should_init: not capturing and the socket is open. -/
def capture_should_init (cap : CaptureData) : Bool :=
  !cap.capturing && decide (0 ≤ cap.connfd)

/-- capture_ready. -/
def capture_ready (cap : CaptureData) : Bool :=
  cap.capturing

/-- valid_rect: both extent components nonzero. -/
def valid_rect (s : VkSwapData) : Bool :=
  decide (s.image_extent_w ≠ 0) && decide (s.image_extent_h ≠ 0)

/-! ## Layer: teardown helpers and their action traces -/

/-- vk_shtex_clear_fence: when the slot is busy, wait on its fence, reset it,
and clear the busy flag. -/
def vk_shtex_clear_fence (f : VkFrameData) : List VkAction × VkFrameData :=
  if f.cmd_buffer_busy then
    ([.waitForFences f.fence, .resetFences f.fence], { f with cmd_buffer_busy := false })
  else ([], f)

/-- The loop written after the first statement of vk_shtex_wait_until_pool_idle.
The first statement of that function is a bare return, so control never reaches
this loop; it is kept here as the source keeps it. -/
def vk_shtex_wait_until_pool_idle_loop (q : VkQueueData) : List VkAction × VkQueueData :=
  ((q.frames.map (fun f => if f.cmd_pool ≠ 0 then (vk_shtex_clear_fence f).1 else [])).flatten,
   { q with frames := q.frames.map (fun f =>
       if f.cmd_pool ≠ 0 then (vk_shtex_clear_fence f).2 else f) })

/-- vk_shtex_wait_until_pool_idle: its body begins with a bare return, so it
does nothing. -/
def vk_shtex_wait_until_pool_idle (q : VkQueueData) : List VkAction × VkQueueData :=
  ([], q)

/-- vk_shtex_wait_until_idle: walk the queues, calling the pool-idle wait. -/
def vk_shtex_wait_until_idle (d : VkData) : List VkAction × VkData :=
  ((d.queues.map (fun q => (vk_shtex_wait_until_pool_idle q).1)).flatten,
   { d with queues := d.queues.map (fun q => (vk_shtex_wait_until_pool_idle q).2) })

/-- The calls vk_shtex_free performs for one swap: destroy the export image if
set, close the DMA-BUF fd if open, free the export memory if set. -/
def vk_shtex_free_swap_acts (s : VkSwapData) : List VkAction :=
  (if s.export_image ≠ 0 then [VkAction.destroyImage s.export_image] else []) ++
  (if 0 ≤ s.dmabuf_fd then [VkAction.closeFd s.dmabuf_fd] else []) ++
  (if s.export_mem ≠ 0 then [VkAction.freeMemory s.export_mem] else [])

/-- The state vk_shtex_free leaves one swap in. -/
def vk_shtex_free_swap (s : VkSwapData) : VkSwapData :=
  { s with dmabuf_fd := -1, export_mem := 0, export_image := 0, captured := false }

/-- vk_shtex_free: wait until idle, release every export image/fd/memory,
clear cur_swap and the process-wide capturing flag. -/
def vk_shtex_free (d : VkData) (cap : CaptureData) :
    List VkAction × VkData × CaptureData :=
  let p := vk_shtex_wait_until_idle d
  (p.1 ++ (p.2.swaps.map vk_shtex_free_swap_acts).flatten,
   { p.2 with swaps := p.2.swaps.map vk_shtex_free_swap, cur_swap := none },
   { cap with capturing := false })

/-- vk_shtex_destroy_fence: wait when busy (no reset), then destroy the fence. -/
def vk_shtex_destroy_fence (f : VkFrameData) : List VkAction × VkFrameData :=
  let p : List VkAction × VkFrameData :=
    if f.cmd_buffer_busy then
      ([VkAction.waitForFences f.fence], { f with cmd_buffer_busy := false })
    else ([], f)
  (p.1 ++ [VkAction.destroyFence f.fence], { p.2 with fence := 0 })

/-- vk_shtex_destroy_frame_objects: destroy every fence and command pool of the
queue ring and drop the ring. -/
def vk_shtex_destroy_frame_objects (q : VkQueueData) : List VkAction × VkQueueData :=
  ((q.frames.map (fun f =>
      (vk_shtex_destroy_fence f).1 ++ [VkAction.destroyCommandPool f.cmd_pool])).flatten,
   { q with frames := [] })

/-! ## Layer: export setup (vk_shtex_init_vulkan_tex, capture_init_shtex) -/

/-- VkMemoryPropertyFlags bit DEVICE_LOCAL. -/
def VK_MEMORY_PROPERTY_DEVICE_LOCAL_BIT : Nat := 1

/-- The loop condition in vk_shtex_init_vulkan_tex for memory type i with
property flags: the type bit is allowed and DEVICE_LOCAL is set. -/
def memTypeOk (typeBits flags : Nat) (i : Nat) : Bool :=
  typeBits.testBit i &&
    ((flags &&& VK_MEMORY_PROPERTY_DEVICE_LOCAL_BIT) == VK_MEMORY_PROPERTY_DEVICE_LOCAL_BIT)

/-- The search loop, from index i over the remaining property-flag entries. -/
def findMemTypeIdxAux (typeBits : Nat) : Nat → List Nat → Option Nat
  | _, [] => none
  | i, flags :: rest =>
    if memTypeOk typeBits flags i then some i else findMemTypeIdxAux typeBits (i + 1) rest

/-- The memory-type index vk_shtex_init_vulkan_tex selects (none when the loop
runs to memoryTypeCount). -/
def findMemTypeIdx (typeBits : Nat) (memTypes : List Nat) : Option Nat :=
  findMemTypeIdxAux typeBits 0 memTypes

/-- Results of the Vulkan calls vk_shtex_init_vulkan_tex makes: VkResult values
(0 = VK_SUCCESS), the handles returned on success, the queried subresource
layout, and the physical-device memory properties. -/
structure TexOracle where
  createImageRes : Int
  imageHandle : Nat
  rowPitch : Nat
  layout_offset : Nat
  memoryTypeBits : Nat
  memTypes : List Nat
  allocRes : Int
  memHandle : Nat
  bindRes : Int
  getFdRes : Int
  fd : Int
  deriving DecidableEq

/-- vk_shtex_init_vulkan_tex: create the export image, query its layout, pick a
memory type, allocate, bind, export the DMA-BUF fd.  On the AllocateMemory
failure path the source destroys the image but does not null export_image;
every other failure path nulls it. -/
def vk_shtex_init_vulkan_tex (o : TexOracle) (s : VkSwapData) : Bool × VkSwapData :=
  if o.createImageRes ≠ 0 then (false, { s with export_image := 0 })
  else
    let s1 :=
      { s with
        export_image := o.imageHandle,
        rowPitch := o.rowPitch,
        layout_offset := o.layout_offset }
    match findMemTypeIdx o.memoryTypeBits o.memTypes with
    | none => (false, { s1 with export_image := 0 })
    | some _ =>
      if o.allocRes ≠ 0 then (false, s1)
      else
        let s2 := { s1 with export_mem := o.memHandle }
        if o.bindRes ≠ 0 then (false, { s2 with export_image := 0 })
        else if o.getFdRes ≠ 0 then (false, { s2 with export_image := 0 })
        else (true, { s2 with dmabuf_fd := o.fd })

/-- struct msg_texture_data, the message capture_init_shtex builds: five C ints
and a uint64, no discriminant field. -/
structure MsgTextureData where
  width : Nat
  height : Nat
  fourcc : Nat
  stride : Nat
  offset : Nat
  modifiers : Nat
  deriving DecidableEq

/-- The field values capture_init_shtex stores into the message. -/
def capture_init_shtex_msg (s : VkSwapData) : MsgTextureData :=
  { width := s.image_extent_w,
    height := s.image_extent_h,
    fourcc := 0,
    stride := s.rowPitch,
    offset := s.layout_offset,
    modifiers := 0 }

/-- n little-endian bytes of a value. -/
def leBytes : Nat → Nat → List Nat
  | 0, _ => []
  | n + 1, v => (v % 256) :: leBytes n (v / 256)

/-- The byte image of struct msg_texture_data on a little-endian LP64 target:
five 4-byte ints, 4 padding bytes (taken as zero), one 8-byte modifier. -/
def msgTextureDataBytes (m : MsgTextureData) : List Nat :=
  leBytes 4 m.width ++ leBytes 4 m.height ++ leBytes 4 m.fourcc ++
  leBytes 4 m.stride ++ leBytes 4 m.offset ++ [0, 0, 0, 0] ++ leBytes 8 m.modifiers

/-- The descriptors the SCM_RIGHTS control message of capture_init_shtex
carries: CMSG_LEN(sizeof(int)) worth, exactly the one DMA-BUF fd. -/
def capture_init_shtex_fds (s : VkSwapData) : List Int :=
  [s.dmabuf_fd]

/-- capture_init_shtex with the sendmsg return value passed in: the source only
logs a negative result, then unconditionally marks the swap captured and the
process capturing. -/
def capture_init_shtex (sent : Int) (s : VkSwapData) (cap : CaptureData) :
    VkSwapData × CaptureData :=
  ({ s with captured := true }, { cap with capturing := true })

/-- vk_shtex_init: run the Vulkan texture setup, set cur_swap, send the message,
report failure only if the captured flag stayed clear. -/
def vk_shtex_init (o : TexOracle) (sent : Int) (d : VkData) (k : Nat)
    (cap : CaptureData) : Bool × VkData × CaptureData :=
  match getSwap d k with
  | none => (false, d, cap)
  | some swap =>
    let p := vk_shtex_init_vulkan_tex o swap
    if !p.1 then (false, setSwap d p.2, cap)
    else
      let d1 := { setSwap d p.2 with cur_swap := some k }
      let q := capture_init_shtex sent p.2 cap
      let d2 := setSwap d1 q.1
      if !q.1.captured then (false, d2, q.2) else (true, d2, q.2)

/-! ## Layer: socket polling and the per-present driver -/

/-- Outcomes of the socket calls inside capture_update_socket: whether the
1-in-60 limiter fired, whether connect succeeded and with which fd, and the
result of the liveness recv. -/
structure SockOracle where
  fired : Bool
  connectOk : Bool
  newfd : Nat
  recvN : Int
  recvEagain : Bool
  deriving DecidableEq

/-- capture_update_socket: rate-limited; reconnect when disconnected; probe the
socket with a one-byte recv, closing it on EOF or a non-EAGAIN error. -/
def capture_update_socket (so : SockOracle) (cap : CaptureData) : CaptureData :=
  if !so.fired then cap
  else if cap.connfd < 0 ∧ !so.connectOk then cap
  else
    let cap1 := if cap.connfd < 0 then { cap with connfd := (so.newfd : Int) } else cap
    if so.recvN = -1 ∧ so.recvEagain then cap1
    else if so.recvN ≤ 0 then { cap1 with connfd := -1 }
    else cap1

/-- vk_capture: the body of the present hook once the device is valid and the
queue supports transfer.  The final capture_ready branch with the matching
swapchain runs vk_shtex_capture, which only touches the queue frame ring and
is not modelled here. -/
def vk_capture (so : SockOracle) (o : TexOracle) (sent : Int) (d : VkData)
    (k : Nat) (cap : CaptureData) : VkData × CaptureData :=
  match getSwap d k with
  | none => (d, cap)
  | some swap0 =>
    let cap1 := capture_update_socket so cap
    let p1 : VkData × CaptureData :=
      if capture_should_stop cap1 then
        let f := vk_shtex_free d cap1
        (f.2.1, f.2.2)
      else (d, cap1)
    let p2 : VkData × CaptureData :=
      if capture_should_init p1.2 then
        if valid_rect swap0 then
          let r := vk_shtex_init o sent p1.1 k p1.2
          if !r.1 then
            let f := vk_shtex_free r.2.1 r.2.2
            ({ f.2.1 with valid := false }, f.2.2)
          else (r.2.1, r.2.2)
        else p1
      else p1
    if capture_ready p2.2 then
      if some k ≠ p2.1.cur_swap then
        let f := vk_shtex_free p2.1 p2.2
        (f.2.1, f.2.2)
      else p2
    else p2

/-! ## Layer: device and swapchain entry points -/

/-- remove_obj_data on the device registry: drop the first node with the key. -/
def removeDeviceList : List VkData → Nat → List VkData
  | [], _ => []
  | d :: rest, k => if d.key = k then rest else d :: removeDeviceList rest k

/-- Action classifiers used to state what a teardown trace avoids. -/
def isFenceWaitOrReset : VkAction → Bool
  | .waitForFences _ => true
  | .resetFences _ => true
  | _ => false

/-- Whether an action releases an export resource (image, memory or fd). -/
def isExportRelease : VkAction → Bool
  | .destroyImage _ => true
  | .freeMemory _ => true
  | .closeFd _ => true
  | _ => false

/-- Whether an action is a ResetFences call. -/
def isResetFencesAct : VkAction → Bool
  | .resetFences _ => true
  | _ => false

/-- OBS_DestroyDevice: remove the device from the registry, destroy every frame
object of every queue when the device is valid, free the queue and device
records, and forward to the next layer.  The swaps list and the process-wide
capture state are not touched. -/
def OBS_DestroyDevice (reg : List VkData) (k : Nat) : List VkAction × List VkData :=
  match reg.find? (fun d => d.key == k) with
  | none => ([], reg)
  | some d =>
    let acts :=
      if d.valid then
        (d.queues.map (fun q => (vk_shtex_destroy_frame_objects q).1)).flatten
      else []
    (acts ++ [VkAction.destroyDeviceNext], removeDeviceList reg k)

/-- Results of the calls OBS_CreateSwapchainKHR makes: the next-layer create
with modified usage flags, the retry with the original info, the passthrough
call for an invalid device, the swapchain-image count query, and whether
alloc_swap_data succeeded. -/
structure SwapchainOracle where
  passthroughRes : Int
  modifiedRes : Int
  retryRes : Int
  imagesCountRes : Int
  imageCount : Nat
  allocOk : Bool
  imagesFillRes : Int
  deriving DecidableEq

/-- OBS_CreateSwapchainKHR for a device with the given validity: returns the
VkResult handed to the application and the swap record registered, if any.
After the modified-usage create succeeds the function always returns
VK_SUCCESS, whatever the image query or the allocation did. -/
def OBS_CreateSwapchainKHR (o : SwapchainOracle) (valid : Bool)
    (k w h fmt : Nat) : Int × Option VkSwapData :=
  if !valid then (o.passthroughRes, none)
  else if o.modifiedRes ≠ 0 then (o.retryRes, none)
  else
    let swapOpt : Option VkSwapData :=
      if o.imagesCountRes = 0 ∧ 0 < o.imageCount then
        if o.allocOk then
          some { key := k,
                 image_extent_w := w,
                 image_extent_h := h,
                 format := fmt,
                 export_image := 0,
                 export_mem := 0,
                 rowPitch := 0,
                 layout_offset := 0,
                 image_count := o.imageCount,
                 dmabuf_fd := -1,
                 captured := false }
        else none
      else none
    (0, swapOpt)

/-- OBS_DestroySwapchainKHR: when the handle is not null, the device is valid
and the swap is registered, free the capture state if this is the current
swapchain, then remove the swap record; always forward to the next layer. -/
def OBS_DestroySwapchainKHR (d : VkData) (k : Nat) (cap : CaptureData) :
    VkData × CaptureData :=
  if k ≠ 0 ∧ d.valid then
    match getSwap d k with
    | some _ =>
      let p : VkData × CaptureData :=
        if d.cur_swap = some k then
          let f := vk_shtex_free d cap
          (f.2.1, f.2.2)
        else (d, cap)
      (removeSwap p.1 k, p.2)
    | none => (d, cap)
  else (d, cap)

/-! ## Layer: the operation-level state machine

The process state is the device registry plus the capture singleton.  Each
operation is one intercepted Vulkan call together with the oracle outcomes of
the external calls it performs. -/

/-- The whole-process state of the layer. -/
structure GlobalState where
  devices : List VkData
  cap : CaptureData
  deriving DecidableEq

/-- Registry lookup by device key. -/
def getDevice (g : GlobalState) (k : Nat) : Option VkData :=
  g.devices.find? (fun d => d.key == k)

/-- Write back the device record with the same key. -/
def setDevice (g : GlobalState) (d : VkData) : GlobalState :=
  { g with devices := g.devices.map (fun x => if x.key = d.key then d else x) }

/-- One intercepted layer operation with its oracle outcomes. -/
inductive LayerOp where
  | createDevice (key : Nat) (valid : Bool)
  | destroyDevice (key : Nat)
  | createSwapchain (devKey : Nat) (o : SwapchainOracle) (k w h fmt : Nat)
  | destroySwapchain (devKey swapKey : Nat)
  | present (devKey swapKey : Nat) (transferOk : Bool)
      (so : SockOracle) (o : TexOracle) (sent : Int)
  deriving DecidableEq

/-- The transition of one layer operation on the process state.  destroyDevice
destroys frame objects and forwards; neither touches the fields tracked here
beyond removing the registry entry. -/
def layerStep (g : GlobalState) : LayerOp → GlobalState
  | .createDevice key valid =>
    { g with devices :=
        { key := key, valid := valid, queues := [], swaps := [], cur_swap := none }
          :: g.devices }
  | .destroyDevice key =>
    { g with devices := removeDeviceList g.devices key }
  | .createSwapchain devKey o k w h fmt =>
    match getDevice g devKey with
    | none => g
    | some d =>
      if d.valid then
        match (OBS_CreateSwapchainKHR o true k w h fmt).2 with
        | some s => setDevice g { d with swaps := s :: d.swaps }
        | none => g
      else g
  | .destroySwapchain devKey swapKey =>
    match getDevice g devKey with
    | none => g
    | some d =>
      let p := OBS_DestroySwapchainKHR d swapKey g.cap
      { setDevice g p.1 with cap := p.2 }
  | .present devKey swapKey transferOk so o sent =>
    match getDevice g devKey with
    | none => g
    | some d =>
      if d.valid && transferOk then
        let p := vk_capture so o sent d swapKey g.cap
        { setDevice g p.1 with cap := p.2 }
      else g

/-- The process state at layer load: no devices, disconnected, not capturing. -/
def initialGlobalState : GlobalState :=
  { devices := [], cap := { connfd := -1, capturing := false } }

/-- Run a sequence of layer operations from the initial state. -/
def runTrace (ops : List LayerOp) : GlobalState :=
  ops.foldl layerStep initialGlobalState

/-- Liveness of an export image as the C6 claim words it: non-null image handle
and an open DMA-BUF fd. -/
def swapLiveB (s : VkSwapData) : Bool :=
  decide (s.export_image ≠ 0) && decide (0 ≤ s.dmabuf_fd)

/-- The C6 claim for one device, as stated: cur_swap is non-nil iff the
process-wide capturing flag is set and the current swapchain is live. -/
def claimC6B (cap : CaptureData) (d : VkData) : Bool :=
  d.cur_swap.isSome ==
    (cap.capturing &&
      (match d.cur_swap with
       | some k =>
         match getSwap d k with
         | some s => swapLiveB s
         | none => false
       | none => false))

/-- The C6 claim over every tracked device. -/
def claimC6AllB (g : GlobalState) : Bool :=
  g.devices.all (claimC6B g.cap)

/-! ## Layer: the single-device machine and its invariant -/

/-- The operations that can reach a fixed live device during its lifetime. -/
inductive DevOp where
  | createSwapchain (o : SwapchainOracle) (k w h fmt : Nat)
  | destroySwapchain (swapKey : Nat)
  | present (swapKey : Nat) (transferOk : Bool)
      (so : SockOracle) (o : TexOracle) (sent : Int)
  deriving DecidableEq

/-- The transition of one operation on one device and the capture singleton. -/
def devStep (d : VkData) (cap : CaptureData) : DevOp → VkData × CaptureData
  | .createSwapchain o k w h fmt =>
    if d.valid then
      match (OBS_CreateSwapchainKHR o true k w h fmt).2 with
      | some s => ({ d with swaps := s :: d.swaps }, cap)
      | none => (d, cap)
    else (d, cap)
  | .destroySwapchain k => OBS_DestroySwapchainKHR d k cap
  | .present k transferOk so o sent =>
    if d.valid && transferOk then vk_capture so o sent d k cap else (d, cap)

/-- The single-device form of the C6 invariant: cur_swap is non-nil exactly
when the process is capturing, and then the current swap is registered with a
live export image. -/
def DevInv (d : VkData) (cap : CaptureData) : Prop :=
  match d.cur_swap with
  | none => cap.capturing = false
  | some k => cap.capturing = true ∧
      ∃ s, getSwap d k = some s ∧ s.export_image ≠ 0 ∧ 0 ≤ s.dmabuf_fd

/-- Postconditions of successful external calls that the operations rely on:
a created swapchain handle is fresh, and on success VkCreateImage returns a
non-null handle while vkGetMemoryFdKHR returns a usable descriptor. -/
def DevOpWF (d : VkData) : DevOp → Prop
  | .createSwapchain _ k _ _ _ => getSwap d k = none
  | .destroySwapchain _ => True
  | .present _ _ _ o _ => o.imageHandle ≠ 0 ∧ 0 ≤ o.fd

/-! ## Concrete sample states used to evaluate the model -/

/-- The swap record registered for a 1920 by 1080 B8G8R8A8_UNORM swapchain of
three images, before any export setup. -/
def sampleFreshSwap : VkSwapData :=
  { key := 1,
    image_extent_w := 1920,
    image_extent_h := 1080,
    format := 44,
    export_image := 0,
    export_mem := 0,
    rowPitch := 0,
    layout_offset := 0,
    image_count := 3,
    dmabuf_fd := -1,
    captured := false }

/-- Oracle for an export setup in which every Vulkan call succeeds: image
handle 5, a single DEVICE_LOCAL memory type, memory handle 7, fd 9. -/
def sampleTexOracle : TexOracle :=
  { createImageRes := 0,
    imageHandle := 5,
    rowPitch := 7680,
    layout_offset := 0,
    memoryTypeBits := 1,
    memTypes := [1],
    allocRes := 0,
    memHandle := 7,
    bindRes := 0,
    getFdRes := 0,
    fd := 9 }

/-- The same swapchain after vk_shtex_init_vulkan_tex succeeded. -/
def sampleExportSwap : VkSwapData :=
  { sampleFreshSwap with export_image := 5, export_mem := 7, rowPitch := 7680, dmabuf_fd := 9 }

/-- A connected but not yet capturing singleton. -/
def sampleCap : CaptureData :=
  { connfd := 3, capturing := false }

/-- A valid device tracking the fresh swapchain. -/
def sampleDevice : VkData :=
  { key := 10, valid := true, queues := [], swaps := [sampleFreshSwap], cur_swap := none }

/-- A frame slot whose command buffer is in flight. -/
def busyFrame : VkFrameData :=
  { cmd_pool := 12, cmd_buffer := 13, fence := 11, cmd_buffer_busy := true }

/-- A transfer queue whose ring holds the busy slot. -/
def sampleQueue : VkQueueData :=
  { key := 21, fam_idx := 0, supports_transfer := true, frames := [busyFrame], frame_index := 0 }

/-- A device in mid-capture: live export image, open fd, busy frame slot. -/
def capturedDevice : VkData :=
  { key := 10,
    valid := true,
    queues := [sampleQueue],
    swaps := [{ sampleExportSwap with captured := true }],
    cur_swap := some 1 }

/-- The device registry holding the capturing device. -/
def sampleRegistry : List VkData :=
  [capturedDevice]

/-- A freshly accepted broker client (buf_fds all -1). -/
def sampleClient : BClient :=
  { id := 1, sockfd := 5, buf_id := 0, buf_fds := [-1, -1, -1, -1], cdata := 0,
    tdata := { nfd := 0, rest := 0 } }

/-- A broker state with the listener (fd 4) and the client socket polled. -/
def sampleServer : ServerState :=
  { bufid := 0, clients := [sampleClient], fds := [4, 5], closed := [] }

/-- A received message whose first byte (7) is neither discriminant. -/
def unknownDiscEvent : RecvEvent :=
  { n := 10, errnoEagain := false, buf0 := 7, cdata := 0,
    tdata := { nfd := 0, rest := 0 }, cmsg := none }

/-- recvmsg returning 0: the peer closed the socket. -/
def eofEvent : RecvEvent :=
  { n := 0, errnoEagain := false, buf0 := 0, cdata := 0,
    tdata := { nfd := 0, rest := 0 }, cmsg := none }

/-- A client used for the S5 scenario. -/
def mismatchClient : BClient :=
  { id := 2, sockfd := 6, buf_id := 0, buf_fds := [-1, -1, -1, -1], cdata := 0,
    tdata := { nfd := 0, rest := 0 } }

/-- The broker state holding that client. -/
def mismatchServer : ServerState :=
  { bufid := 0, clients := [mismatchClient], fds := [4, 6], closed := [] }

/-- A control message delivering one descriptor (fd 33). -/
def oneFdCmsg : Cmsg :=
  { level := SOL_SOCKET, ty := SCM_RIGHTS, fds := [33] }

/-- S5: a TextureInfo claiming nfd = 2 while the cmsg carries one fd. -/
def mismatchEvent : RecvEvent :=
  { n := 57, errnoEagain := false, buf0 := CAPTURE_TEXTURE_DATA_TYPE, cdata := 0,
    tdata := { nfd := 2, rest := 0 }, cmsg := some oneFdCmsg }

/-- A well-formed TextureInfo whose nfd matches the single delivered fd. -/
def matchEvent : RecvEvent :=
  { n := 57, errnoEagain := false, buf0 := CAPTURE_TEXTURE_DATA_TYPE, cdata := 0,
    tdata := { nfd := 1, rest := 0 }, cmsg := some oneFdCmsg }

/-- Socket oracle: the limiter fires, connect succeeds with fd 3, and the
liveness recv reports EAGAIN. -/
def sockConnectOracle : SockOracle :=
  { fired := true, connectOk := true, newfd := 3, recvN := -1, recvEagain := true }

/-- Socket oracle: the 1-in-60 limiter does not fire. -/
def sockIdleOracle : SockOracle :=
  { fired := false, connectOk := false, newfd := 0, recvN := -1, recvEagain := true }

/-- Swapchain oracle in which every next-layer call succeeds with 3 images. -/
def sampleSwapOracle : SwapchainOracle :=
  { passthroughRes := 0, modifiedRes := 0, retryRes := 0, imagesCountRes := 0,
    imageCount := 3, allocOk := true, imagesFillRes := 0 }

/-- Device 10 is created, gets swapchain 1, presents once: the export image is
set up, cur_swap is set and capturing becomes true. -/
def c6CaptureTrace : List LayerOp :=
  [ .createDevice 10 true,
    .createSwapchain 10 sampleSwapOracle 1 1920 1080 44,
    .present 10 1 true sockConnectOracle sampleTexOracle 32 ]

/-- A second device 20 is created with swapchain 2 and presents: its vk_capture
sees capturing true with a foreign swapchain and calls vk_shtex_free, clearing
the process-wide flag while device 10 still holds its current swapchain. -/
def c6TwoDeviceTrace : List LayerOp :=
  c6CaptureTrace ++
  [ .createDevice 20 true,
    .createSwapchain 20 sampleSwapOracle 2 800 600 44,
    .present 20 2 true sockIdleOracle sampleTexOracle 32 ]

/-! ## Helper lemmas -/

theorem flatten_map_nil {α β : Type} (l : List α) :
    (l.map (fun _ => ([] : List β))).flatten = [] := by
  induction l with
  | nil => rfl
  | cons x xs ih => simp [ih]

theorem wait_until_idle_eq (d : VkData) : vk_shtex_wait_until_idle d = ([], d) := by
  unfold vk_shtex_wait_until_idle vk_shtex_wait_until_pool_idle
  simp [flatten_map_nil]

theorem free_swap_acts_no_fence (s : VkSwapData) (a : VkAction)
    (h : a ∈ vk_shtex_free_swap_acts s) : isFenceWaitOrReset a = false := by
  unfold vk_shtex_free_swap_acts at h
  rcases List.mem_append.1 h with h1 | h1
  · rcases List.mem_append.1 h1 with h2 | h2
    · split at h2 <;> simp at h2
      subst h2; rfl
    · split at h2 <;> simp at h2
      subst h2; rfl
  · split at h1 <;> simp at h1
    subst h1; rfl

theorem vk_shtex_free_acts (d : VkData) (cap : CaptureData) :
    (vk_shtex_free d cap).1 = (d.swaps.map vk_shtex_free_swap_acts).flatten := by
  unfold vk_shtex_free
  rw [wait_until_idle_eq]
  rfl

/-! ## Claim theorems -/

/-- C9 (confirmed): vk_shtex_wait_until_pool_idle returns immediately without
inspecting any frame slot, hence vk_shtex_wait_until_idle performs no action
and changes nothing, and the teardown path vk_shtex_free never waits on or
resets a frame-slot fence. -/
theorem c9_wait_until_idle_noop :
    (∀ q : VkQueueData, vk_shtex_wait_until_pool_idle q = ([], q)) ∧
    (∀ d : VkData, vk_shtex_wait_until_idle d = ([], d)) ∧
    (∀ (d : VkData) (cap : CaptureData),
      ((vk_shtex_free d cap).1.all (fun a => !isFenceWaitOrReset a)) = true) := by
  refine ⟨fun q => rfl, wait_until_idle_eq, fun d cap => ?_⟩
  rw [vk_shtex_free_acts, List.all_eq_true]
  intro a ha
  rcases List.mem_flatten.1 ha with ⟨acts, hacts, hmem⟩
  rcases List.mem_map.1 hacts with ⟨s, _, rfl⟩
  simp [free_swap_acts_no_fence s a hmem]

/-- C10 (confirmed): once the next layer accepts the create with the modified
usage flags, OBS_CreateSwapchainKHR returns VK_SUCCESS to the application,
whatever the swapchain-image query or the internal allocation did. -/
theorem c10_create_swapchain_returns_success (o : SwapchainOracle) (k w h fmt : Nat)
    (hres : o.modifiedRes = 0) :
    (OBS_CreateSwapchainKHR o true k w h fmt).1 = 0 := by
  simp [OBS_CreateSwapchainKHR, hres]

/-- Witness for C10 at a concrete input: the image query fails with -3 and the
swap-data allocation fails, yet the application still sees VK_SUCCESS. -/
theorem c10_create_swapchain_returns_success_witness :
    (OBS_CreateSwapchainKHR
      { sampleSwapOracle with imagesCountRes := -3, allocOk := false }
      true 1 16 16 44).1 = 0 :=
  c10_create_swapchain_returns_success _ 1 16 16 44 (by decide)

/-- C1 (code_bug): evaluation at the failing input.  With the export image set
up (image 5, memory 7, fd 9) and sendmsg returning -1, capture_init_shtex still
marks the swap captured and the process capturing, and vk_shtex_init still
reports success with cur_swap set; the teardown the claim describes does not
happen. -/
theorem c1_sendmsg_failure_behavior :
    ((capture_init_shtex (-1) sampleExportSwap sampleCap).1.captured = true ∧
     (capture_init_shtex (-1) sampleExportSwap sampleCap).2.capturing = true) ∧
    ((vk_shtex_init sampleTexOracle (-1) sampleDevice 1 sampleCap).1 = true ∧
     (vk_shtex_init sampleTexOracle (-1) sampleDevice 1 sampleCap).2.2.capturing = true ∧
     (vk_shtex_init sampleTexOracle (-1) sampleDevice 1 sampleCap).2.1.cur_swap = some 1) := by
  decide

/-- C2 (code_bug): evaluation at the failing input.  The message built for the
1920 by 1080 export swapchain is the 32-byte legacy msg_texture_data: its first
byte is 128 (the low byte of the width), not the TextureInfo discriminant 2;
its modifier field is 0, not DRM_FORMAT_MOD_INVALID; it carries exactly one
descriptor. -/
theorem c2_wire_message_shape :
    (msgTextureDataBytes (capture_init_shtex_msg sampleExportSwap)).head? = some 128 ∧
    (128 : Nat) ≠ CAPTURE_TEXTURE_DATA_TYPE ∧
    (capture_init_shtex_msg sampleExportSwap).modifiers = 0 ∧
    (0 : Nat) ≠ DRM_FORMAT_MOD_INVALID ∧
    capture_init_shtex_fds sampleExportSwap = [9] ∧
    (msgTextureDataBytes (capture_init_shtex_msg sampleExportSwap)).length = 32 := by
  decide

/-- C3 counterexample: a message whose first byte is 7 (neither discriminant)
leaves the broker state untouched and the drain loop running, unlike the
recvmsg-returns-0 case, which cleans the client up; the claim that such a
message is cleaned up exactly like EOF is false. -/
theorem c3_unknown_discriminant_counterexample :
    server_handle_recv 44 57 sampleServer sampleClient unknownDiscEvent = .cont sampleServer ∧
    server_handle_recv 44 57 sampleServer sampleClient eofEvent =
      .brk (server_cleanup_client sampleServer sampleClient) ∧
    sampleServer.clients = [sampleClient] ∧
    (server_cleanup_client sampleServer sampleClient).clients = [] := by
  decide

/-- C4 counterexample: destroying the device that is mid-capture (export image
5, memory 7, fd 9, one busy frame slot with fence 11 and pool 12) waits on and
destroys the fence, destroys the pool and forwards, but never destroys the
export image, never frees the export memory, never closes the DMA-BUF fd and
never resets a fence — contradicting the claim. -/
theorem c4_destroy_device_counterexample :
    (OBS_DestroyDevice sampleRegistry 10).1 =
      [VkAction.waitForFences 11, VkAction.destroyFence 11,
       VkAction.destroyCommandPool 12, VkAction.destroyDeviceNext] ∧
    VkAction.destroyImage 5 ∉ (OBS_DestroyDevice sampleRegistry 10).1 ∧
    VkAction.freeMemory 7 ∉ (OBS_DestroyDevice sampleRegistry 10).1 ∧
    VkAction.closeFd 9 ∉ (OBS_DestroyDevice sampleRegistry 10).1 ∧
    VkAction.resetFences 11 ∉ (OBS_DestroyDevice sampleRegistry 10).1 := by
  decide

/-- C6 counterexample: after device 10 starts capturing the claimed invariant
holds, but one present of a second device 20 on its own swapchain frees the
capture state of device 20 and clears the process-wide capturing flag while
cur_swap of device 10 stays set, so the claimed invariant fails at the next
operation boundary. -/
theorem c6_multi_device_counterexample :
    claimC6AllB (runTrace c6CaptureTrace) = true ∧
    claimC6AllB (runTrace c6TwoDeviceTrace) = false := by
  decide

/-- C3 (amended): in the drain loop, recvmsg returning 0 cleans the client up;
a message with an unknown first byte is ignored and draining continues; a
ClientInfo message is cleaned up exactly when the two compile-time sizes
differ, because the check compares the constant iovec length, not the received
length; and for any positive received length the outcome is the same, so short
reads are never detected by length. -/
theorem c3_cleanup_conditions (clientSize textureSize : Nat) (st : ServerState)
    (c : BClient) (ev : RecvEvent) :
    (ev.n = 0 →
      server_handle_recv clientSize textureSize st c ev =
        .brk (server_cleanup_client st c)) ∧
    (0 < ev.n → ev.buf0 ≠ CAPTURE_CLIENT_DATA_TYPE → ev.buf0 ≠ CAPTURE_TEXTURE_DATA_TYPE →
      server_handle_recv clientSize textureSize st c ev = .cont st) ∧
    (0 < ev.n → ev.buf0 = CAPTURE_CLIENT_DATA_TYPE → textureSize ≠ clientSize →
      server_handle_recv clientSize textureSize st c ev =
        .brk (server_cleanup_client st c)) ∧
    (0 < ev.n → ev.buf0 = CAPTURE_CLIENT_DATA_TYPE → textureSize = clientSize →
      server_handle_recv clientSize textureSize st c ev =
        .brk (setClient st { c with cdata := ev.cdata })) ∧
    (∀ n₁ n₂ : Int, 0 < n₁ → 0 < n₂ →
      server_handle_recv clientSize textureSize st c { ev with n := n₁ } =
      server_handle_recv clientSize textureSize st c { ev with n := n₂ }) := by
  refine ⟨?_, ?_, ?_, ?_, ?_⟩
  · intro h0
    have h1 : ¬ (ev.n = -1 ∧ ev.errnoEagain) := by
      rintro ⟨h, _⟩; omega
    have h2 : ev.n ≤ 0 := by omega
    simp [server_handle_recv, h1, h2]
  · intro hpos hb1 hb2
    have h1 : ¬ (ev.n = -1 ∧ ev.errnoEagain) := by
      rintro ⟨h, _⟩; omega
    have h2 : ¬ ev.n ≤ 0 := by omega
    simp [server_handle_recv, h1, h2, hb1, hb2]
  · intro hpos hb hsz
    have h1 : ¬ (ev.n = -1 ∧ ev.errnoEagain) := by
      rintro ⟨h, _⟩; omega
    have h2 : ¬ ev.n ≤ 0 := by omega
    simp [server_handle_recv, h1, h2, hb, hsz]
  · intro hpos hb hsz
    have h1 : ¬ (ev.n = -1 ∧ ev.errnoEagain) := by
      rintro ⟨h, _⟩; omega
    have h2 : ¬ ev.n ≤ 0 := by omega
    simp [server_handle_recv, h1, h2, hb, hsz]
  · intro n₁ n₂ hn₁ hn₂
    have e1 : ¬ ((n₁ : Int) = -1 ∧ ev.errnoEagain) := by
      rintro ⟨h, _⟩; omega
    have e2 : ¬ (n₁ : Int) ≤ 0 := by omega
    have e3 : ¬ ((n₂ : Int) = -1 ∧ ev.errnoEagain) := by
      rintro ⟨h, _⟩; omega
    have e4 : ¬ (n₂ : Int) ≤ 0 := by omega
    simp [server_handle_recv, e1, e2, e3, e4]

/-- Witness for C3: instantiation at a concrete client and event for each of
the amended behaviors. -/
theorem c3_cleanup_conditions_witness :
    server_handle_recv 44 57 sampleServer sampleClient eofEvent =
      .brk (server_cleanup_client sampleServer sampleClient) ∧
    server_handle_recv 44 57 sampleServer sampleClient unknownDiscEvent =
      .cont sampleServer :=
  ⟨(c3_cleanup_conditions 44 57 sampleServer sampleClient eofEvent).1 rfl,
   (c3_cleanup_conditions 44 57 sampleServer sampleClient unknownDiscEvent).2.1
     (by decide) (by decide) (by decide)⟩

/-- C5 (confirmed): on a TextureInfo whose nfd differs from the number of
descriptors the control message carries, the broker closes every descriptor it
just received (then the socket and any held buffer fds), removes the client
record, and removes the socket from the poll set. -/
theorem c5_nfd_mismatch_cleanup (clientSize textureSize : Nat) (st : ServerState)
    (c : BClient) (ev : RecvEvent) (cm : Cmsg)
    (h1 : 0 < ev.n) (h2 : ev.buf0 = CAPTURE_TEXTURE_DATA_TYPE) (h3 : ev.cmsg = some cm)
    (h4 : cm.level = SOL_SOCKET) (h5 : cm.ty = SCM_RIGHTS)
    (h6 : ev.tdata.nfd ≠ cm.fds.length) :
    ∃ st2, server_handle_recv clientSize textureSize st c ev = .brk st2 ∧
      st2.closed = st.closed ++ cm.fds ++ [c.sockfd] ++
        c.buf_fds.filter (fun fd => 0 ≤ fd) ∧
      (∀ fd ∈ cm.fds, fd ∈ st2.closed) ∧
      (∀ x ∈ st2.clients, x.id ≠ c.id) ∧
      st2.fds = st.fds.erase c.sockfd := by
  have e1 : ¬ (ev.n = -1 ∧ ev.errnoEagain) := by
    rintro ⟨h, _⟩; omega
  have e2 : ¬ ev.n ≤ 0 := by omega
  have e3 : ev.buf0 ≠ CAPTURE_CLIENT_DATA_TYPE := by
    rw [h2]; decide
  refine ⟨server_cleanup_client
      { setClient st { c with tdata := ev.tdata } with
          closed := st.closed ++ cm.fds }
      { c with tdata := ev.tdata }, ?_, ?_, ?_, ?_, ?_⟩
  · simp [server_handle_recv, e1, e2, e3, h2, h3, h4, h5, h6, setClient,
      CAPTURE_CLIENT_DATA_TYPE, CAPTURE_TEXTURE_DATA_TYPE, SOL_SOCKET, SCM_RIGHTS]
  · simp [server_cleanup_client, setClient]
  · intro fd hfd
    simp [server_cleanup_client, setClient]
    tauto
  · intro x hx
    simp only [server_cleanup_client, setClient, List.mem_filter] at hx
    simpa using hx.2
  · simp [server_cleanup_client, setClient]

/-- Witness for C5: the S5 scenario, nfd = 2 with one fd (33) delivered. -/
theorem c5_nfd_mismatch_cleanup_witness :
    ∃ st2, server_handle_recv 44 57 mismatchServer mismatchClient mismatchEvent = .brk st2 ∧
      st2.closed = mismatchServer.closed ++ oneFdCmsg.fds ++ [mismatchClient.sockfd] ++
        mismatchClient.buf_fds.filter (fun fd => 0 ≤ fd) ∧
      (∀ fd ∈ oneFdCmsg.fds, fd ∈ st2.closed) ∧
      (∀ x ∈ st2.clients, x.id ≠ mismatchClient.id) ∧
      st2.fds = mismatchServer.fds.erase mismatchClient.sockfd :=
  c5_nfd_mismatch_cleanup 44 57 mismatchServer mismatchClient mismatchEvent oneFdCmsg
    (by decide) rfl rfl rfl rfl (by decide)

/-- C7 (confirmed): a successfully processed TextureInfo strictly increases the
buf_id of the receiving client; the bound that every stored buf_id is at most
the thread counter is preserved, so consecutive identical messages yield ever
larger, pairwise distinct buf_ids. -/
theorem c7_buf_id_strict_increase (clientSize textureSize : Nat) (st : ServerState)
    (c : BClient) (ev : RecvEvent) (cm : Cmsg)
    (hinv : ∀ cl ∈ st.clients, cl.buf_id ≤ st.bufid)
    (hc : c ∈ st.clients)
    (h1 : 0 < ev.n) (h2 : ev.buf0 = CAPTURE_TEXTURE_DATA_TYPE) (h3 : ev.cmsg = some cm)
    (h4 : cm.level = SOL_SOCKET) (h5 : cm.ty = SCM_RIGHTS)
    (h6 : ev.tdata.nfd = cm.fds.length) :
    ∃ st2, server_handle_recv clientSize textureSize st c ev = .cont st2 ∧
      st2.bufid = st.bufid + 1 ∧
      (∀ cl ∈ st2.clients, cl.id = c.id → c.buf_id < cl.buf_id) ∧
      (∀ cl ∈ st2.clients, cl.buf_id ≤ st2.bufid) := by
  have e1 : ¬ (ev.n = -1 ∧ ev.errnoEagain) := by
    rintro ⟨h, _⟩; omega
  have e2 : ¬ ev.n ≤ 0 := by omega
  have e3 : ev.buf0 ≠ CAPTURE_CLIENT_DATA_TYPE := by
    rw [h2]; decide
  have hbound := hinv c hc
  refine ⟨setClient
      { setClient st { c with tdata := ev.tdata } with
          bufid := st.bufid + 1,
          closed := st.closed ++ c.buf_fds.filter (fun fd => 0 ≤ fd) }
      { c with
          tdata := ev.tdata,
          buf_fds := (List.range 4).map (fun i => cm.fds.getD i (-1)),
          buf_id := st.bufid + 1 }, ?_, ?_, ?_, ?_⟩
  · simp [server_handle_recv, e1, e2, e3, h2, h3, h4, h5, h6, setClient,
      CAPTURE_CLIENT_DATA_TYPE, CAPTURE_TEXTURE_DATA_TYPE, SOL_SOCKET, SCM_RIGHTS]
  · simp [setClient]
  · intro cl hcl hid
    simp only [setClient, List.map_map, List.mem_map, Function.comp] at hcl
    obtain ⟨y, hy, rfl⟩ := hcl
    by_cases hyid : y.id = c.id
    · simp [hyid]
      omega
    · simp [hyid] at hid
  · intro cl hcl
    simp only [setClient, List.map_map, List.mem_map, Function.comp] at hcl
    obtain ⟨y, hy, rfl⟩ := hcl
    by_cases hyid : y.id = c.id
    · simp [hyid, setClient]
    · have := hinv y hy
      simp [hyid, setClient]
      omega

/-- Witness for C7: a well-formed message with one descriptor bumps the buf_id
of the sample client. -/
theorem c7_buf_id_strict_increase_witness :
    ∃ st2, server_handle_recv 44 57 mismatchServer mismatchClient matchEvent = .cont st2 ∧
      st2.bufid = mismatchServer.bufid + 1 ∧
      (∀ cl ∈ st2.clients, cl.id = mismatchClient.id →
        mismatchClient.buf_id < cl.buf_id) ∧
      (∀ cl ∈ st2.clients, cl.buf_id ≤ st2.bufid) :=
  c7_buf_id_strict_increase 44 57 mismatchServer mismatchClient matchEvent oneFdCmsg
    (by decide) (by decide) (by decide) rfl rfl rfl rfl (by decide)

theorem findMemTypeIdxAux_some_spec (typeBits : Nat) :
    ∀ (l : List Nat) (start i : Nat),
      findMemTypeIdxAux typeBits start l = some i →
      start ≤ i ∧ i - start < l.length ∧
        memTypeOk typeBits (l.getD (i - start) 0) i = true ∧
        ∀ j, start ≤ j → j < i → memTypeOk typeBits (l.getD (j - start) 0) j = false := by
  intro l
  induction l with
  | nil =>
    intro start i h
    simp [findMemTypeIdxAux] at h
  | cons f rest ih =>
    intro start i h
    unfold findMemTypeIdxAux at h
    by_cases hc : memTypeOk typeBits f start = true
    · rw [if_pos hc] at h
      cases h
      refine ⟨Nat.le_refl _, by simp, by simpa using hc, fun j hj1 hj2 => ?_⟩
      omega
    · rw [if_neg hc] at h
      obtain ⟨h1, h2, h3, h4⟩ := ih (start + 1) i h
      have hgt : start < i := by omega
      refine ⟨by omega, by simp; omega, ?_, ?_⟩
      · have hidx : i - start = (i - (start + 1)) + 1 := by omega
        rw [hidx, List.getD_cons_succ]
        exact h3
      · intro j hj1 hj2
        by_cases hj : j = start
        · subst hj
          rw [Bool.not_eq_true] at hc
          simpa using hc
        · have hj1a : start + 1 ≤ j := by omega
          have hidx : j - start = (j - (start + 1)) + 1 := by omega
          rw [hidx, List.getD_cons_succ]
          exact h4 j hj1a hj2

theorem findMemTypeIdxAux_none_spec (typeBits : Nat) :
    ∀ (l : List Nat) (start : Nat),
      findMemTypeIdxAux typeBits start l = none →
      ∀ j, j < l.length → memTypeOk typeBits (l.getD j 0) (start + j) = false := by
  intro l
  induction l with
  | nil =>
    intro start h j hj
    simp at hj
  | cons f rest ih =>
    intro start h j hj
    unfold findMemTypeIdxAux at h
    by_cases hc : memTypeOk typeBits f start = true
    · rw [if_pos hc] at h
      cases h
    · rw [if_neg hc] at h
      cases j with
      | zero =>
        rw [Bool.not_eq_true] at hc
        simpa using hc
      | succ m =>
        have hm : m < rest.length := by
          simpa using Nat.lt_of_succ_lt_succ hj
        have := ih (start + 1) h m hm
        have harith : start + (m + 1) = (start + 1) + m := by omega
        rw [harith, List.getD_cons_succ]
        exact this

/-- C8 (confirmed): the export setup picks as memory type the lowest index
whose bit is set in memoryTypeBits and whose property flags include
DEVICE_LOCAL; when no index below memoryTypeCount qualifies the search yields
none, and vk_shtex_init_vulkan_tex then fails with the half-built
export image destroyed and its handle nulled. -/
theorem c8_memory_type_selection (typeBits : Nat) (memTypes : List Nat) :
    (∀ i, findMemTypeIdx typeBits memTypes = some i →
      i < memTypes.length ∧ memTypeOk typeBits (memTypes.getD i 0) i = true ∧
      ∀ j, j < i → memTypeOk typeBits (memTypes.getD j 0) j = false) ∧
    (findMemTypeIdx typeBits memTypes = none →
      ∀ j, j < memTypes.length → memTypeOk typeBits (memTypes.getD j 0) j = false) ∧
    (∀ (o : TexOracle) (s : VkSwapData), o.createImageRes = 0 →
      findMemTypeIdx o.memoryTypeBits o.memTypes = none →
      (vk_shtex_init_vulkan_tex o s).1 = false ∧
      (vk_shtex_init_vulkan_tex o s).2.export_image = 0) := by
  refine ⟨?_, ?_, ?_⟩
  · intro i h
    obtain ⟨h1, h2, h3, h4⟩ := findMemTypeIdxAux_some_spec typeBits memTypes 0 i h
    refine ⟨by simpa using h2, by simpa using h3, fun j hj => ?_⟩
    have := h4 j (Nat.zero_le j) hj
    simpa using this
  · intro h j hj
    have := findMemTypeIdxAux_none_spec typeBits memTypes 0 h j hj
    simpa using this
  · intro o s hcreate hnone
    simp [vk_shtex_init_vulkan_tex, hcreate, hnone]

/-- Witness for C8 at a concrete input: with allowed-type mask 6 and property
flags [1, 0, 1] the selected index is 2, DEVICE_LOCAL holds there, and every
lower index fails one of the two conditions. -/
theorem c8_memory_type_selection_witness :
    2 < ([1, 0, 1] : List Nat).length ∧ memTypeOk 6 (([1, 0, 1] : List Nat).getD 2 0) 2 = true ∧
    ∀ j, j < 2 → memTypeOk 6 (([1, 0, 1] : List Nat).getD j 0) j = false :=
  (c8_memory_type_selection 6 [1, 0, 1]).1 2 (by decide)

theorem destroy_frame_acts_mem (q : VkQueueData) (f : VkFrameData) (hf : f ∈ q.frames) :
    (f.cmd_buffer_busy = true →
      VkAction.waitForFences f.fence ∈ (vk_shtex_destroy_frame_objects q).1) ∧
    VkAction.destroyFence f.fence ∈ (vk_shtex_destroy_frame_objects q).1 ∧
    VkAction.destroyCommandPool f.cmd_pool ∈ (vk_shtex_destroy_frame_objects q).1 := by
  have hsub : (vk_shtex_destroy_fence f).1 ++ [VkAction.destroyCommandPool f.cmd_pool] ∈
      q.frames.map (fun g =>
        (vk_shtex_destroy_fence g).1 ++ [VkAction.destroyCommandPool g.cmd_pool]) :=
    List.mem_map.2 ⟨f, hf, rfl⟩
  refine ⟨?_, ?_, ?_⟩
  · intro hbusy
    refine List.mem_flatten.2 ⟨_, hsub, ?_⟩
    simp [vk_shtex_destroy_fence, hbusy]
  · refine List.mem_flatten.2 ⟨_, hsub, ?_⟩
    simp [vk_shtex_destroy_fence]
  · refine List.mem_flatten.2 ⟨_, hsub, ?_⟩
    simp

theorem destroy_frame_acts_classify (q : VkQueueData) (a : VkAction)
    (h : a ∈ (vk_shtex_destroy_frame_objects q).1) :
    isExportRelease a = false ∧ isResetFencesAct a = false := by
  unfold vk_shtex_destroy_frame_objects at h
  rcases List.mem_flatten.1 h with ⟨acts, hacts, hmem⟩
  rcases List.mem_map.1 hacts with ⟨f, _, rfl⟩
  rcases List.mem_append.1 hmem with h1 | h1
  · unfold vk_shtex_destroy_fence at h1
    rcases List.mem_append.1 h1 with h2 | h2
    · split at h2 <;> simp at h2
      subst h2
      exact ⟨rfl, rfl⟩
    · simp at h2
      subst h2
      exact ⟨rfl, rfl⟩
  · simp at h1
    subst h1
    exact ⟨rfl, rfl⟩

/-- C4 (amended): OBS_DestroyDevice removes the device from the registry,
waits on every busy frame-slot fence and destroys every fence and command pool
of its queues, and forwards to the next layer; it never resets a fence and
never frees an export image, export memory or DMA-BUF fd — those are released
by DestroySwapchainKHR of the current swapchain or on capture stop, not here. -/
theorem c4_destroy_device_behavior (reg : List VkData) (k : Nat) (d : VkData)
    (hfind : reg.find? (fun x => x.key == k) = some d) :
    (OBS_DestroyDevice reg k).2 = removeDeviceList reg k ∧
    VkAction.destroyDeviceNext ∈ (OBS_DestroyDevice reg k).1 ∧
    (d.valid = true → ∀ q ∈ d.queues, ∀ f ∈ q.frames,
      (f.cmd_buffer_busy = true →
        VkAction.waitForFences f.fence ∈ (OBS_DestroyDevice reg k).1) ∧
      VkAction.destroyFence f.fence ∈ (OBS_DestroyDevice reg k).1 ∧
      VkAction.destroyCommandPool f.cmd_pool ∈ (OBS_DestroyDevice reg k).1) ∧
    ((OBS_DestroyDevice reg k).1.all
      (fun a => !isExportRelease a && !isResetFencesAct a)) = true := by
  have heq : OBS_DestroyDevice reg k =
      ((if d.valid then
          (d.queues.map (fun q => (vk_shtex_destroy_frame_objects q).1)).flatten
        else []) ++ [VkAction.destroyDeviceNext], removeDeviceList reg k) := by
    unfold OBS_DestroyDevice
    rw [hfind]
  rw [heq]
  refine ⟨rfl, by simp, ?_, ?_⟩
  · intro hvalid q hq f hf
    rw [if_pos hvalid]
    have hin : (vk_shtex_destroy_frame_objects q).1 ∈
        d.queues.map (fun r => (vk_shtex_destroy_frame_objects r).1) :=
      List.mem_map.2 ⟨q, hq, rfl⟩
    obtain ⟨m1, m2, m3⟩ := destroy_frame_acts_mem q f hf
    refine ⟨fun hbusy => ?_, ?_, ?_⟩
    · exact List.mem_append.2 (Or.inl (List.mem_flatten.2 ⟨_, hin, m1 hbusy⟩))
    · exact List.mem_append.2 (Or.inl (List.mem_flatten.2 ⟨_, hin, m2⟩))
    · exact List.mem_append.2 (Or.inl (List.mem_flatten.2 ⟨_, hin, m3⟩))
  · rw [List.all_eq_true]
    intro a ha
    rcases List.mem_append.1 ha with h1 | h1
    · split at h1
      · rcases List.mem_flatten.1 h1 with ⟨acts, hacts, hmem⟩
        rcases List.mem_map.1 hacts with ⟨q, _, rfl⟩
        obtain ⟨e1, e2⟩ := destroy_frame_acts_classify q a hmem
        simp [e1, e2]
      · simp at h1
    · simp at h1
      subst h1
      rfl

/-- Witness for C4 at the concrete capturing device: the busy fence 11 is
waited on and destroyed, pool 12 destroyed, the device entry removed. -/
theorem c4_destroy_device_behavior_witness :
    (OBS_DestroyDevice sampleRegistry 10).2 = removeDeviceList sampleRegistry 10 ∧
    VkAction.destroyDeviceNext ∈ (OBS_DestroyDevice sampleRegistry 10).1 ∧
    (capturedDevice.valid = true → ∀ q ∈ capturedDevice.queues, ∀ f ∈ q.frames,
      (f.cmd_buffer_busy = true →
        VkAction.waitForFences f.fence ∈ (OBS_DestroyDevice sampleRegistry 10).1) ∧
      VkAction.destroyFence f.fence ∈ (OBS_DestroyDevice sampleRegistry 10).1 ∧
      VkAction.destroyCommandPool f.cmd_pool ∈ (OBS_DestroyDevice sampleRegistry 10).1) ∧
    ((OBS_DestroyDevice sampleRegistry 10).1.all
      (fun a => !isExportRelease a && !isResetFencesAct a)) = true :=
  c4_destroy_device_behavior sampleRegistry 10 capturedDevice (by decide)

theorem DevInv_of_none {d : VkData} {cap : CaptureData}
    (h1 : d.cur_swap = none) (h2 : cap.capturing = false) : DevInv d cap := by
  unfold DevInv
  rw [h1]
  exact h2

theorem DevInv_of_some {d : VkData} {cap : CaptureData} {k : Nat} {s : VkSwapData}
    (h1 : d.cur_swap = some k) (h2 : cap.capturing = true)
    (h3 : getSwap d k = some s) (h4 : s.export_image ≠ 0) (h5 : 0 ≤ s.dmabuf_fd) :
    DevInv d cap := by
  unfold DevInv
  rw [h1]
  exact ⟨h2, s, h3, h4, h5⟩

theorem DevInv_none_elim {d : VkData} {cap : CaptureData}
    (h : DevInv d cap) (h1 : d.cur_swap = none) : cap.capturing = false := by
  unfold DevInv at h
  rw [h1] at h
  exact h

theorem DevInv_some_elim {d : VkData} {cap : CaptureData} {k : Nat}
    (h : DevInv d cap) (h1 : d.cur_swap = some k) :
    cap.capturing = true ∧
      ∃ s, getSwap d k = some s ∧ s.export_image ≠ 0 ∧ 0 ≤ s.dmabuf_fd := by
  unfold DevInv at h
  rw [h1] at h
  exact h

theorem DevInv_capturing_congr {d : VkData} {cap cap2 : CaptureData}
    (h : DevInv d cap) (he : cap2.capturing = cap.capturing) : DevInv d cap2 := by
  cases hd : d.cur_swap with
  | none => exact DevInv_of_none hd (he.trans (DevInv_none_elim h hd))
  | some k =>
    obtain ⟨h1, s, h3, h4, h5⟩ := DevInv_some_elim h hd
    exact DevInv_of_some hd (he.trans h1) h3 h4 h5

theorem capture_update_socket_capturing (so : SockOracle) (cap : CaptureData) :
    (capture_update_socket so cap).capturing = cap.capturing := by
  unfold capture_update_socket
  repeat' split
  all_goals rfl

theorem vk_shtex_free_cur_swap (d : VkData) (cap : CaptureData) :
    (vk_shtex_free d cap).2.1.cur_swap = none :=
  rfl

theorem vk_shtex_free_capturing (d : VkData) (cap : CaptureData) :
    (vk_shtex_free d cap).2.2.capturing = false :=
  rfl

theorem vk_shtex_free_connfd (d : VkData) (cap : CaptureData) :
    (vk_shtex_free d cap).2.2.connfd = cap.connfd :=
  rfl

theorem DevInv_free (d : VkData) (cap : CaptureData) :
    DevInv (vk_shtex_free d cap).2.1 (vk_shtex_free d cap).2.2 :=
  DevInv_of_none rfl rfl

theorem tex_success_state (o : TexOracle) (s : VkSwapData)
    (h : (vk_shtex_init_vulkan_tex o s).1 = true) :
    (vk_shtex_init_vulkan_tex o s).2 =
      { s with
        export_image := o.imageHandle,
        rowPitch := o.rowPitch,
        layout_offset := o.layout_offset,
        export_mem := o.memHandle,
        dmabuf_fd := o.fd } := by
  by_cases h1 : o.createImageRes ≠ 0
  · simp [vk_shtex_init_vulkan_tex, h1] at h
  · cases hm : findMemTypeIdx o.memoryTypeBits o.memTypes with
    | none => simp [vk_shtex_init_vulkan_tex, h1, hm] at h
    | some i =>
      by_cases h2 : o.allocRes ≠ 0
      · simp [vk_shtex_init_vulkan_tex, h1, hm, h2] at h
      · by_cases h3 : o.bindRes ≠ 0
        · simp [vk_shtex_init_vulkan_tex, h1, hm, h2, h3] at h
        · by_cases h4 : o.getFdRes ≠ 0
          · simp [vk_shtex_init_vulkan_tex, h1, hm, h2, h3, h4] at h
          · simp [vk_shtex_init_vulkan_tex, h1, hm, h2, h3, h4]

theorem find_map_replace (l : List VkSwapData) (k : Nat) (swap s : VkSwapData)
    (h : l.find? (fun x => x.key == k) = some swap) (hk : s.key = swap.key) :
    (l.map (fun x => if x.key = s.key then s else x)).find? (fun x => x.key == k) =
      some s := by
  induction l with
  | nil => simp at h
  | cons x xs ih =>
    by_cases hx : (x.key == k) = true
    · have hrw : List.find? (fun y => y.key == k) (x :: xs) = some x :=
        List.find?_cons_of_pos xs hx
      rw [hrw] at h
      injection h with h
      subst h
      rw [List.map_cons, if_pos hk.symm]
      have : (s.key == k) = true := by
        rw [show s.key = x.key from hk]
        exact hx
      exact List.find?_cons_of_pos _ this
    · have hrw : List.find? (fun y => y.key == k) (x :: xs) =
          List.find? (fun y => y.key == k) xs :=
        List.find?_cons_of_neg xs hx
      rw [hrw] at h
      have hswapk0 := List.find?_some h
      have hswapk : (swap.key == k) = true := hswapk0
      have hxs : ¬ (x.key = s.key) := by
        intro hcontra
        apply hx
        rw [hcontra, hk]
        exact hswapk
      rw [List.map_cons, if_neg hxs]
      have hrw2 : List.find? (fun y => y.key == k)
          (x :: xs.map (fun y => if y.key = s.key then s else y)) =
          List.find? (fun y => y.key == k) (xs.map (fun y => if y.key = s.key then s else y)) :=
        List.find?_cons_of_neg _ hx
      rw [hrw2]
      exact ih h

theorem getSwap_setSwap_self (d : VkData) (k : Nat) (swap s : VkSwapData)
    (h : getSwap d k = some swap) (hk : s.key = swap.key) :
    getSwap (setSwap d s) k = some s :=
  find_map_replace d.swaps k swap s h hk

theorem find_removeFirst_ne (l : List VkSwapData) (k k2 : Nat) (hne : k2 ≠ k) :
    (removeSwapList l k).find? (fun x => x.key == k2) =
      l.find? (fun x => x.key == k2) := by
  induction l with
  | nil => rfl
  | cons x xs ih =>
    unfold removeSwapList
    by_cases hx : x.key = k
    · rw [if_pos hx]
      have hrw : List.find? (fun y => y.key == k2) (x :: xs) =
          List.find? (fun y => y.key == k2) xs := by
        refine List.find?_cons_of_neg xs ?_
        simp [hx]
        omega
      rw [hrw]
    · rw [if_neg hx]
      by_cases hxk : (x.key == k2) = true
      · have hrw1 : List.find? (fun y => y.key == k2) (x :: removeSwapList xs k) = some x :=
          List.find?_cons_of_pos _ hxk
        have hrw2 : List.find? (fun y => y.key == k2) (x :: xs) = some x :=
          List.find?_cons_of_pos _ hxk
        rw [hrw1, hrw2]
      · have hrw1 : List.find? (fun y => y.key == k2) (x :: removeSwapList xs k) =
            List.find? (fun y => y.key == k2) (removeSwapList xs k) :=
          List.find?_cons_of_neg _ hxk
        have hrw2 : List.find? (fun y => y.key == k2) (x :: xs) =
            List.find? (fun y => y.key == k2) xs :=
          List.find?_cons_of_neg _ hxk
        rw [hrw1, hrw2]
        exact ih

theorem getSwap_removeSwap_ne (d : VkData) (k k2 : Nat) (hne : k2 ≠ k) :
    getSwap (removeSwap d k) k2 = getSwap d k2 :=
  find_removeFirst_ne d.swaps k k2 hne

theorem getSwap_cons_ne (d : VkData) (s : VkSwapData) (k2 : Nat) (h : s.key ≠ k2) :
    getSwap { d with swaps := s :: d.swaps } k2 = getSwap d k2 := by
  unfold getSwap
  refine List.find?_cons_of_neg _ ?_
  simpa using h

theorem createSwapchain_reg_fields (o : SwapchainOracle) (k w h fmt : Nat)
    (s : VkSwapData)
    (hreg : (OBS_CreateSwapchainKHR o true k w h fmt).2 = some s) :
    s.key = k ∧ s.export_image = 0 ∧ s.captured = false ∧ s.dmabuf_fd = -1 := by
  by_cases h1 : o.modifiedRes ≠ 0
  · simp [OBS_CreateSwapchainKHR, h1] at hreg
  · by_cases h2 : o.imagesCountRes = 0 ∧ 0 < o.imageCount
    · by_cases h3 : o.allocOk = true
      · simp [OBS_CreateSwapchainKHR, h1, h2, h3] at hreg
        rw [← hreg]
        exact ⟨rfl, rfl, rfl, rfl⟩
      · simp [OBS_CreateSwapchainKHR, h1, h2, h3] at hreg
    · simp [OBS_CreateSwapchainKHR, h1, h2] at hreg

theorem vk_shtex_init_success (o : TexOracle) (sent : Int) (d : VkData) (k : Nat)
    (cap : CaptureData) (swap : VkSwapData)
    (hswap : getSwap d k = some swap)
    (hok : (vk_shtex_init o sent d k cap).1 = true) :
    (vk_shtex_init o sent d k cap).2.1.cur_swap = some k ∧
    (vk_shtex_init o sent d k cap).2.2.capturing = true ∧
    ∃ s, getSwap (vk_shtex_init o sent d k cap).2.1 k = some s ∧
      s.export_image = o.imageHandle ∧ s.dmabuf_fd = o.fd := by
  have hkey : swap.key = k := by
    have := List.find?_some hswap
    simpa using this
  by_cases hp : (vk_shtex_init_vulkan_tex o swap).1 = true
  · have hs2 := tex_success_state o swap hp
    have hmain : vk_shtex_init o sent d k cap =
        (true,
         setSwap { setSwap d (vk_shtex_init_vulkan_tex o swap).2 with cur_swap := some k }
           { (vk_shtex_init_vulkan_tex o swap).2 with captured := true },
         { cap with capturing := true }) := by
      unfold vk_shtex_init
      rw [hswap]
      simp only [hp, Bool.not_true, capture_init_shtex]
      rfl
    rw [hmain]
    refine ⟨rfl, rfl, ?_⟩
    have hg1 : getSwap (setSwap d (vk_shtex_init_vulkan_tex o swap).2) k =
        some (vk_shtex_init_vulkan_tex o swap).2 := by
      refine getSwap_setSwap_self d k swap _ hswap ?_
      rw [hs2]
    have hg1a : getSwap
        { setSwap d (vk_shtex_init_vulkan_tex o swap).2 with cur_swap := some k } k =
        some (vk_shtex_init_vulkan_tex o swap).2 := hg1
    have hg2 : getSwap
        (setSwap { setSwap d (vk_shtex_init_vulkan_tex o swap).2 with cur_swap := some k }
          { (vk_shtex_init_vulkan_tex o swap).2 with captured := true }) k =
        some { (vk_shtex_init_vulkan_tex o swap).2 with captured := true } := by
      refine getSwap_setSwap_self _ k (vk_shtex_init_vulkan_tex o swap).2 _ hg1a rfl
    refine ⟨_, hg2, ?_, ?_⟩
    · rw [hs2]
    · rw [hs2]
  · exfalso
    have hmain : (vk_shtex_init o sent d k cap).1 = false := by
      unfold vk_shtex_init
      rw [hswap]
      simp only [Bool.not_eq_true] at hp
      simp [hp]
    rw [hmain] at hok
    exact Bool.false_ne_true hok

/-- C6 (amended): for a single tracked device the invariant is inductive over
every layer operation during the device lifetime: cur_swap is non-nil exactly
when the process-wide capturing flag is set, and then the current swapchain is
registered with a live export image (non-null handle, open fd).  With several
devices the claimed process-wide biconditional fails, as the counterexample
trace shows. -/
theorem c6_single_device_invariant (d : VkData) (cap : CaptureData) (op : DevOp)
    (hwf : DevOpWF d op) (hinv : DevInv d cap) :
    DevInv (devStep d cap op).1 (devStep d cap op).2 := by
  cases op with
  | createSwapchain o k w h fmt =>
    simp only [devStep]
    by_cases hv : d.valid = true
    · rw [if_pos hv]
      cases hreg : (OBS_CreateSwapchainKHR o true k w h fmt).2 with
      | none => exact hinv
      | some s =>
        obtain ⟨hskey, _, _, _⟩ := createSwapchain_reg_fields o k w h fmt s hreg
        cases hcur : d.cur_swap with
        | none => exact DevInv_of_none rfl (DevInv_none_elim hinv hcur)
        | some k2 =>
          obtain ⟨hcap, s0, hs0, him, hfd⟩ := DevInv_some_elim hinv hcur
          have hk2 : s.key ≠ k2 := by
            rw [hskey]
            intro heq
            have hwf2 : getSwap d k = none := hwf
            rw [heq] at hwf2
            rw [hwf2] at hs0
            exact Option.noConfusion hs0
          refine DevInv_of_some rfl hcap ?_ him hfd
          show (s :: d.swaps).find? (fun x => x.key == k2) = some s0
          have hrw : (s :: d.swaps).find? (fun x => x.key == k2) =
              d.swaps.find? (fun x => x.key == k2) :=
            List.find?_cons_of_neg _ (by simpa using hk2)
          rw [hrw]
          exact hs0
    · rw [if_neg hv]
      exact hinv
  | destroySwapchain k =>
    simp only [devStep]
    unfold OBS_DestroySwapchainKHR
    by_cases hcond : k ≠ 0 ∧ d.valid = true
    · rw [if_pos hcond]
      cases hg : getSwap d k with
      | none => exact hinv
      | some s0 =>
        by_cases hcur : d.cur_swap = some k
        · rw [if_pos hcur]
          exact DevInv_of_none rfl rfl
        · rw [if_neg hcur]
          cases hdc : d.cur_swap with
          | none => exact DevInv_of_none hdc (DevInv_none_elim hinv hdc)
          | some k2 =>
            obtain ⟨hcap, s1, hs1, him, hfd⟩ := DevInv_some_elim hinv hdc
            have hk2 : k2 ≠ k := by
              intro heq
              exact hcur (by rw [hdc, heq])
            refine DevInv_of_some (d := removeSwap d k) hdc hcap ?_ him hfd
            rw [getSwap_removeSwap_ne d k k2 hk2]
            exact hs1
    · rw [if_neg hcond]
      exact hinv
  | present k transferOk so o sent =>
    simp only [devStep]
    by_cases hv : (d.valid && transferOk) = true
    · rw [if_pos hv]
      simp only [vk_capture]
      cases hg : getSwap d k with
      | none => exact hinv
      | some swap0 =>
        have hcapeq := capture_update_socket_capturing so cap
        by_cases hstop : capture_should_stop (capture_update_socket so cap) = true
        · have hconn : (capture_update_socket so cap).connfd < 0 := by
            unfold capture_should_stop at hstop
            simp at hstop
            exact hstop.2
          have hinitF : capture_should_init
              (vk_shtex_free d (capture_update_socket so cap)).2.2 = false := by
            unfold capture_should_init
            rw [vk_shtex_free_capturing, vk_shtex_free_connfd]
            simp
            omega
          have hreadyF : capture_ready
              (vk_shtex_free d (capture_update_socket so cap)).2.2 = false := by
            unfold capture_ready
            rw [vk_shtex_free_capturing]
          simp [hstop, hinitF, hreadyF]
          exact DevInv_free d (capture_update_socket so cap)
        · have hstopF : capture_should_stop (capture_update_socket so cap) = false := by
            rw [Bool.not_eq_true] at hstop
            exact hstop
          by_cases hinit : capture_should_init (capture_update_socket so cap) = true
          · have hcapfalse : (capture_update_socket so cap).capturing = false := by
              unfold capture_should_init at hinit
              simp at hinit
              exact hinit.1
            by_cases hrect : valid_rect swap0 = true
            · by_cases hr : (vk_shtex_init o sent d k (capture_update_socket so cap)).1 = true
              · obtain ⟨hcs, hct, s, hgs, him, hfd⟩ :=
                  vk_shtex_init_success o sent d k (capture_update_socket so cap) swap0 hg hr
                have hready : capture_ready (vk_shtex_init o sent d k
                    (capture_update_socket so cap)).2.2 = true := by
                  unfold capture_ready
                  exact hct
                have hne : ¬ (some k ≠ (vk_shtex_init o sent d k
                    (capture_update_socket so cap)).2.1.cur_swap) := by
                  rw [hcs]
                  simp
                simp [hstopF, hinit, hrect, hr, hready, hne]
                obtain ⟨him0, hfd0⟩ := hwf
                refine DevInv_of_some hcs hct hgs ?_ ?_
                · rw [him]
                  exact him0
                · rw [hfd]
                  exact hfd0
              · have hrF : (vk_shtex_init o sent d k
                    (capture_update_socket so cap)).1 = false := by
                  rw [Bool.not_eq_true] at hr
                  exact hr
                have hreadyF : capture_ready (vk_shtex_free
                    (vk_shtex_init o sent d k (capture_update_socket so cap)).2.1
                    (vk_shtex_init o sent d k (capture_update_socket so cap)).2.2).2.2
                    = false := by
                  unfold capture_ready
                  rw [vk_shtex_free_capturing]
                simp [hstopF, hinit, hrect, hrF, hreadyF]
                exact DevInv_of_none rfl rfl
            · have hrectF : valid_rect swap0 = false := by
                rw [Bool.not_eq_true] at hrect
                exact hrect
              have hreadyF : capture_ready (capture_update_socket so cap) = false := by
                unfold capture_ready
                exact hcapfalse
              simp [hstopF, hinit, hrectF, hreadyF]
              cases hdc : d.cur_swap with
              | none => exact DevInv_of_none hdc hcapfalse
              | some k2 =>
                obtain ⟨hcap, _⟩ := DevInv_some_elim hinv hdc
                rw [hcapeq, hcap] at hcapfalse
                exact Bool.noConfusion hcapfalse
          · have hinitF : capture_should_init (capture_update_socket so cap) = false := by
              rw [Bool.not_eq_true] at hinit
              exact hinit
            by_cases hready : capture_ready (capture_update_socket so cap) = true
            · by_cases hne : some k ≠ d.cur_swap
              · simp [hstopF, hinitF, hready, hne]
                exact DevInv_free d (capture_update_socket so cap)
              · simp [hstopF, hinitF, hready, hne]
                push_neg at hne
                have hdc : d.cur_swap = some k := hne.symm
                obtain ⟨hcap, s1, hs1, him, hfd⟩ := DevInv_some_elim hinv hdc
                refine DevInv_of_some hdc ?_ hs1 him hfd
                unfold capture_ready at hready
                exact hready
            · have hreadyF : capture_ready (capture_update_socket so cap) = false := by
                rw [Bool.not_eq_true] at hready
                exact hready
              simp [hstopF, hinitF, hreadyF]
              cases hdc : d.cur_swap with
              | none =>
                refine DevInv_of_none hdc ?_
                unfold capture_ready at hreadyF
                exact hreadyF
              | some k2 =>
                obtain ⟨hcap, _⟩ := DevInv_some_elim hinv hdc
                exfalso
                unfold capture_ready at hreadyF
                rw [hcapeq, hcap] at hreadyF
                exact Bool.noConfusion hreadyF
    · rw [if_neg hv]
      exact hinv

/-- Witness for C6 (amended): one present on an idle, swapless device preserves
the invariant. -/
theorem c6_single_device_invariant_witness :
    DevInv (devStep { key := 10, valid := true, queues := [], swaps := [], cur_swap := none }
        { connfd := -1, capturing := false }
        (DevOp.present 1 true sockIdleOracle sampleTexOracle 32)).1
      (devStep { key := 10, valid := true, queues := [], swaps := [], cur_swap := none }
        { connfd := -1, capturing := false }
        (DevOp.present 1 true sockIdleOracle sampleTexOracle 32)).2 :=
  c6_single_device_invariant
    { key := 10, valid := true, queues := [], swaps := [], cur_swap := none }
    { connfd := -1, capturing := false }
    (DevOp.present 1 true sockIdleOracle sampleTexOracle 32)
    ⟨by decide, by decide⟩ rfl

end ObsVkcapture
